import Mathlib

/-!
Verification of the pointer interaction engine of the nose-pointer app.

The development shallowly embeds the interaction state machine of
`src/client/src/hooks/usePointerFSM.ts` (first revision, lines 1-257),
the signal conditioner / gesture classifier of the most complete
`useNosePointer` revision (the one consumed by `UnifiedSelectionScreen`,
with EMA smoothing, sensitivity mapping and the gesture cool-down), and a
spec-modelled dwell state machine for the inner-region/charging variant
whose implementation is not part of the provided sources.

Coordinates and distances are rationals (JS numbers carrying pixel
values); timestamps are integers (milliseconds, `Date.now()`), so that
`now - then` has exact JS integer semantics.
-/

namespace PointerFSM

/-- The four states of `FSMState` in `usePointerFSM.ts`. -/
inductive FSMState where
  | idle
  | hover
  | confirm
  | cancel
deriving DecidableEq, Repr

/-- `ButtonBounds` from `usePointerFSM.ts`. -/
structure ButtonBounds where
  x : ℚ
  y : ℚ
  width : ℚ
  height : ℚ
  id : String
deriving DecidableEq, Repr

/-- `FSMContext` from `usePointerFSM.ts`. -/
structure FSMContext where
  state : FSMState
  activeButtonId : Option String
  hoverStartTime : Option ℤ
  confirmedButtonId : Option String
deriving DecidableEq, Repr

/-- The full mutable state of the `usePointerFSM` hook: the context plus
the refs `lastHoveredRef` and `lastGestureTimeRef`, and the registered
button map (kept as a list in `Map` insertion order). -/
structure FSMModel where
  ctx : FSMContext
  lastHoveredId : Option String
  lastHoveredTime : ℤ
  lastGestureTime : ℤ
  buttons : List ButtonBounds
deriving DecidableEq, Repr

/-- The initial `FSMContext` of the hook (`useState` initializer). -/
def initialContext : FSMContext :=
  { state := FSMState.idle
    activeButtonId := none
    hoverStartTime := none
    confirmedButtonId := none }

/-- JavaScript truthiness of a nullable string (`null` and the empty
string are falsy), as used by `prev.activeButtonId` and
`lastHoveredRef.current.id` guards. -/
def jsTruthy : Option String → Bool
  | none => false
  | some s => s ≠ ""

/-- `isPointerInButton` from `usePointerFSM.ts`. -/
def isPointerInButton (pointerX pointerY : ℚ) (bounds : ButtonBounds) : Bool :=
  decide (pointerX ≥ bounds.x) && decide (pointerX ≤ bounds.x + bounds.width) &&
  decide (pointerY ≥ bounds.y) && decide (pointerY ≤ bounds.y + bounds.height)

/-- `CANCEL_ZONE_HEIGHT` from `usePointerFSM.ts`. -/
def CANCEL_ZONE_HEIGHT : ℚ := 80

/-- `isPointerInCancelZone` from `usePointerFSM.ts`; `screenHeight` is
`window.innerHeight`. -/
def isPointerInCancelZone (screenHeight pointerY : ℚ) : Bool :=
  decide (pointerY ≥ screenHeight - CANCEL_ZONE_HEIGHT)

/-- The `buttonBounds.forEach` scan of `updatePointerPosition`: the local
`foundButton` is overwritten by every matching rectangle, so the result
is the last match in `Map` insertion order. -/
def findButton (buttons : List ButtonBounds) (pointerX pointerY : ℚ) :
    Option ButtonBounds :=
  buttons.foldl
    (fun acc b => if isPointerInButton pointerX pointerY b then some b else acc)
    none

/-- `registerButton` from `usePointerFSM.ts`: `Map.set` semantics, i.e.
last-write-wins in place for an existing id, append for a new id. -/
def registerButton (buttons : List ButtonBounds) (id : String)
    (bounds : ButtonBounds) : List ButtonBounds :=
  if buttons.any (fun b => b.id = id) then
    buttons.map (fun b => if b.id = id then bounds else b)
  else
    buttons ++ [bounds]

/-- `unregisterButton` from `usePointerFSM.ts` (`Map.delete`). -/
def unregisterButton (buttons : List ButtonBounds) (id : String) :
    List ButtonBounds :=
  buttons.filter (fun b => b.id ≠ id)

/-- `updatePointerPosition` from `usePointerFSM.ts` (first revision).
`now` is `Date.now()` at the time of the call. -/
def updatePointerPosition (screenHeight pointerX pointerY : ℚ) (now : ℤ)
    (st : FSMModel) : FSMModel :=
  let st := { st with lastGestureTime := now }
  if isPointerInCancelZone screenHeight pointerY then
    if st.ctx.state = FSMState.confirm then st
    else
      { st with ctx := { st.ctx with
          state := FSMState.cancel
          activeButtonId := none } }
  else
    match findButton st.buttons pointerX pointerY with
    | some foundButton =>
      if st.ctx.state = FSMState.confirm then st
      else if st.ctx.activeButtonId = some foundButton.id then st
      else
        { st with ctx := { st.ctx with
            state := FSMState.hover
            activeButtonId := some foundButton.id
            hoverStartTime := some now
            confirmedButtonId := none } }
    | none =>
      if st.ctx.state = FSMState.confirm then st
      else
        let st :=
          if st.ctx.state ≠ FSMState.idle then
            { st with
              lastHoveredId := st.ctx.activeButtonId
              lastHoveredTime := now }
          else st
        { st with ctx := { st.ctx with
            state := FSMState.idle
            activeButtonId := none
            hoverStartTime := none } }

/-- Gesture directions shared by the conditioner and the FSM. -/
inductive Direction where
  | up
  | down
  | none
deriving DecidableEq, Repr

/-- `handleGesture` from `usePointerFSM.ts` (first revision). `now` is
`Date.now()` at the time of the grace-window check. -/
def handleGesture (direction : Direction) (distance : ℚ) (now : ℤ)
    (st : FSMModel) : FSMModel :=
  match direction with
  | Direction.none => st
  | Direction.down =>
    if st.ctx.state = FSMState.hover ∧ jsTruthy st.ctx.activeButtonId then
      { st with ctx := { st.ctx with
          state := FSMState.confirm
          confirmedButtonId := st.ctx.activeButtonId } }
    else if st.ctx.state = FSMState.idle ∧ jsTruthy st.lastHoveredId ∧
        now - st.lastHoveredTime < 500 then
      { st with ctx := { st.ctx with
          state := FSMState.confirm
          confirmedButtonId := st.lastHoveredId } }
    else st
  | Direction.up =>
    if distance > 15 / 100 then
      { st with ctx := initialContext }
    else
      { st with ctx := { st.ctx with
          state := FSMState.cancel
          activeButtonId := none } }

/-- `resetConfirm` from `usePointerFSM.ts`: note that it keeps
`activeButtonId` and `hoverStartTime` (object spread of `prev`). -/
def resetConfirm (st : FSMModel) : FSMModel :=
  { st with ctx := { st.ctx with
      state := FSMState.idle
      confirmedButtonId := none } }

/-- `resetCancel` from `usePointerFSM.ts`. -/
def resetCancel (st : FSMModel) : FSMModel :=
  { st with ctx := { st.ctx with state := FSMState.idle } }

/-- `checkInactivity` from `usePointerFSM.ts`, run by the 1 s interval:
clears everything when more than 12000 ms passed since the last
`updatePointerPosition` call. -/
def checkInactivity (now : ℤ) (st : FSMModel) : FSMModel :=
  if now - st.lastGestureTime > 12000 then
    { st with ctx := initialContext }
  else st

/-- A batch of pointer updates `(x, y, now)` applied in order, all with
the same screen height. -/
def applyPointerUpdates (screenHeight : ℚ)
    (updates : List (ℚ × ℚ × ℤ)) (st : FSMModel) : FSMModel :=
  updates.foldl (fun s u => updatePointerPosition screenHeight u.1 u.2.1 u.2.2 s) st

end PointerFSM

namespace NosePointer

/-- `PointerPosition` from `useNosePointer.ts`. -/
structure PointerPosition where
  x : ℚ
  y : ℚ
  confidence : ℚ
  isTracking : Bool
deriving DecidableEq, Repr

/-- The EMA blending factor `alpha = 0.3` of `processFrame`. -/
def alphaEMA : ℚ := 3 / 10

/-- The coordinate mapping of `processFrame`: mirror horizontally, scale
the deviation from the screen center by the sensitivity multiplier, then
map into screen pixel space. -/
def mapRawToScreen (sensitivity nx ny screenWidth screenHeight : ℚ) : ℚ × ℚ :=
  let centeredX := 1 - nx - 1 / 2
  let centeredY := ny - 1 / 2
  ((centeredX * sensitivity + 1 / 2) * screenWidth,
   (centeredY * sensitivity + 1 / 2) * screenHeight)

/-- The smoothing step of `processFrame`: EMA blend with the previous
conditioned position when it was tracking, otherwise the raw mapped
position unchanged. -/
def smoothStep (prev : PointerPosition) (rawX rawY : ℚ) : ℚ × ℚ :=
  if prev.isTracking then
    (alphaEMA * rawX + (1 - alphaEMA) * prev.x,
     alphaEMA * rawY + (1 - alphaEMA) * prev.y)
  else (rawX, rawY)

/-- One `processFrame` iteration in which the landmarker detected a face:
map the raw normalized nose landmark and smooth it. Confidence is fixed
to 1 by the source. -/
def processFrameTracked (sensitivity screenWidth screenHeight : ℚ)
    (prev : PointerPosition) (nx ny : ℚ) : PointerPosition :=
  let raw := mapRawToScreen sensitivity nx ny screenWidth screenHeight
  let sm := smoothStep prev raw.1 raw.2
  { x := sm.1, y := sm.2, confidence := 1, isTracking := true }

/-- One `processFrame` iteration in which no face was detected: only
`isTracking` is dropped, the conditioned position is kept. -/
def processFrameLost (prev : PointerPosition) : PointerPosition :=
  { prev with isTracking := false }

/-- `GestureState` from `useNosePointer.ts`. -/
structure GestureState where
  direction : PointerFSM.Direction
  distance : ℚ
  duration : ℤ
deriving DecidableEq, Repr

/-- The mutable state of the gesture classifier: the published gesture
state (ref and React state move together), the window anchors
`prevNosePosRef`, `gestureStartTimeRef`, `gestureStartPosRef`, and the
pending auto-clear timeout (captured direction and fire time). -/
structure GestureModel where
  gestureState : GestureState
  prevNosePos : Option (ℚ × ℚ)
  gestureStartTime : Option ℤ
  gestureStartPos : Option (ℚ × ℚ)
  pendingClear : Option (PointerFSM.Direction × ℤ)
deriving DecidableEq, Repr

/-- The cleared gesture state `{direction: none, distance: 0, duration: 0}`. -/
def clearedGestureState : GestureState :=
  { direction := PointerFSM.Direction.none, distance := 0, duration := 0 }

/-- The pure classification step of `detectGesture`: `down` when the
frame delta exceeds 2 px and the cumulative delta exceeds 2% of the
screen height, else `up` when the frame delta is under -5 px and the
cumulative delta under -5% of the screen height, else `none`. -/
def classifyDirection (deltaY totalDeltaY screenHeight : ℚ) : PointerFSM.Direction :=
  if deltaY > 2 ∧ totalDeltaY > screenHeight * (2 / 100) then
    PointerFSM.Direction.down
  else if deltaY < -5 ∧ totalDeltaY < -(screenHeight * (5 / 100)) then
    PointerFSM.Direction.up
  else PointerFSM.Direction.none

/-- `detectGesture` from the conditioner: anchors the window on the
first sample, otherwise classifies the direction from the frame delta
and the cumulative delta since the window anchor, publishes a new
gesture state only when the direction changed, and schedules the 500 ms
auto-clear timeout when the new direction is not `none`. The `y || x`
fallbacks mirror the JS truthiness of `gestureStartPosRef.current?.y ||
currentPos.y` and `gestureStartTimeRef.current || now` (0 is falsy). -/
def detectGesture (pos : ℚ × ℚ) (screenHeight : ℚ) (now : ℤ)
    (g : GestureModel) : GestureModel :=
  match g.prevNosePos with
  | none =>
    { g with
      prevNosePos := some pos
      gestureStartTime := some now
      gestureStartPos := some pos }
  | some prev =>
    let deltaY := pos.2 - prev.2
    let startY :=
      match g.gestureStartPos with
      | some sp => if sp.2 = 0 then pos.2 else sp.2
      | none => pos.2
    let totalDeltaY := pos.2 - startY
    let startT :=
      match g.gestureStartTime with
      | some t => if t = 0 then now else t
      | none => now
    let duration := now - startT
    let distancePercent := |totalDeltaY| / screenHeight
    let direction := classifyDirection deltaY totalDeltaY screenHeight
    if direction ≠ g.gestureState.direction then
      let g1 := { g with gestureState :=
        { direction := direction, distance := distancePercent, duration := duration } }
      let g2 :=
        if direction ≠ PointerFSM.Direction.none then
          { g1 with pendingClear := some (direction, now + 500) }
        else g1
      { g2 with prevNosePos := some pos }
    else
      { g with prevNosePos := some pos }

/-- The body of the 500 ms `setTimeout` scheduled by `detectGesture`:
if the gesture state still holds the captured direction, clear it to
`none` and reset all window anchors; otherwise do nothing. -/
def clearGestureTimeout (direction : PointerFSM.Direction)
    (g : GestureModel) : GestureModel :=
  if g.gestureState.direction = direction then
    { gestureState := clearedGestureState
      prevNosePos := none
      gestureStartTime := none
      gestureStartPos := none
      pendingClear := none }
  else g

end NosePointer

namespace DwellISM

/-- Modelled from the spec: `TargetRect` of the Target Registry (section
3); the dwell/inner-region revision of the interaction state machine
(spec section 4.3, states `Idle`, `HoverOuter`, `Charging`,
`ReadyToConfirm`, `Confirmed`) is referenced by `UnifiedSelectionScreen`
(`hover_outer`, `hover_inner`, `ready_to_confirm`, `progress`) but its
implementation file is not among the provided sources, so this namespace
follows the spec's words. -/
structure TargetRect where
  id : String
  x : ℚ
  y : ℚ
  width : ℚ
  height : ℚ
deriving DecidableEq, Repr

/-- Modelled from the spec: the fixed inner-region margin, "rect shrunk
by a fixed margin, e.g., 10% per side". -/
def INNER_MARGIN : ℚ := 1 / 10

/-- Modelled from the spec: axis-aligned rectangle membership. -/
def inRect (r : TargetRect) (px py : ℚ) : Bool :=
  decide (px ≥ r.x) && decide (px ≤ r.x + r.width) &&
  decide (py ≥ r.y) && decide (py ≤ r.y + r.height)

/-- Modelled from the spec: the inner region of a target, the rect
shrunk by `INNER_MARGIN` per side. -/
def innerRect (r : TargetRect) : TargetRect :=
  { id := r.id
    x := r.x + r.width * INNER_MARGIN
    y := r.y + r.height * INNER_MARGIN
    width := r.width * (1 - 2 * INNER_MARGIN)
    height := r.height * (1 - 2 * INNER_MARGIN) }

/-- Modelled from the spec: membership in a target's inner region. -/
def inInner (r : TargetRect) (px py : ℚ) : Bool :=
  inRect (innerRect r) px py

/-- Modelled from the spec: hit-test against the registry's outer
regions, first match in iteration order (spec section 4.2). -/
def hitOuter (reg : List TargetRect) (px py : ℚ) : Option TargetRect :=
  reg.find? (fun r => inRect r px py)

/-- Modelled from the spec: hit-test against the registry's inner
regions, first match in iteration order. -/
def hitInner (reg : List TargetRect) (px py : ℚ) : Option TargetRect :=
  reg.find? (fun r => inInner r px py)

/-- Modelled from the spec: the interaction states of section 4.3. -/
inductive DwellState where
  | idle
  | hoverOuter (id : String)
  | charging (id : String) (start : ℤ)
  | readyToConfirm (id : String)
  | confirmed (id : String)
deriving DecidableEq, Repr

/-- Modelled from the spec: `onPointerUpdate` of section 4.3 with the
dwell-timer check folded into the update at time `now` (the timer of a
charge started at `start` has fired exactly when `now - start ≥ D`).
Charging retargets with a fresh start on a different target's inner
region; leaving the inner region falls back to the outer hit or `Idle`;
`Confirmed` is terminal; confirmation itself requires the explicit down
gesture (`dwellGestureDown`). -/
def dwellUpdate (reg : List TargetRect) (D now : ℤ) (px py : ℚ) :
    DwellState → DwellState
  | DwellState.idle =>
    match hitInner reg px py with
    | some r => DwellState.charging r.id now
    | none =>
      match hitOuter reg px py with
      | some r => DwellState.hoverOuter r.id
      | none => DwellState.idle
  | DwellState.hoverOuter _ =>
    match hitInner reg px py with
    | some r => DwellState.charging r.id now
    | none =>
      match hitOuter reg px py with
      | some r => DwellState.hoverOuter r.id
      | none => DwellState.idle
  | DwellState.charging i start =>
    match hitInner reg px py with
    | some r =>
      if r.id = i then
        if now - start ≥ D then DwellState.readyToConfirm i
        else DwellState.charging i start
      else DwellState.charging r.id now
    | none =>
      match hitOuter reg px py with
      | some r => DwellState.hoverOuter r.id
      | none => DwellState.idle
  | DwellState.readyToConfirm i =>
    match hitOuter reg px py with
    | some r =>
      if r.id = i then DwellState.readyToConfirm i
      else DwellState.hoverOuter r.id
    | none => DwellState.idle
  | DwellState.confirmed i => DwellState.confirmed i

/-- Modelled from the spec: the explicit confirmation gesture, valid
only in `ReadyToConfirm` (section 4.3). -/
def dwellGestureDown : DwellState → DwellState
  | DwellState.readyToConfirm i => DwellState.confirmed i
  | s => s

/-- A trace of timed pointer samples `(now, x, y)` folded through
`dwellUpdate`. -/
def runDwell (reg : List TargetRect) (D : ℤ)
    (samples : List (ℤ × ℚ × ℚ)) (s : DwellState) : DwellState :=
  samples.foldl (fun st u => dwellUpdate reg D u.1 u.2.1 u.2.2 st) s

/-- Whether a sample's position inner-hits the registry on target `i`. -/
def innerHitsId (reg : List TargetRect) (i : String) (u : ℤ × ℚ × ℚ) : Bool :=
  match hitInner reg u.2.1 u.2.2 with
  | some r => r.id == i
  | none => false

/-- Whether a sample's position outer-hits the registry on target `i`. -/
def outerHitsId (reg : List TargetRect) (i : String) (u : ℤ × ℚ × ℚ) : Bool :=
  match hitOuter reg u.2.1 u.2.2 with
  | some r => r.id == i
  | none => false

end DwellISM

namespace PointerFSM

theorem updatePointerPosition_confirm_frozen
    (screenHeight pointerX pointerY : ℚ) (now : ℤ) (st : FSMModel)
    (h : st.ctx.state = FSMState.confirm) :
    (updatePointerPosition screenHeight pointerX pointerY now st).ctx = st.ctx := by
  unfold updatePointerPosition
  cases hz : isPointerInCancelZone screenHeight pointerY <;>
    simp only [if_pos, if_neg, h, Bool.false_eq_true, if_true, if_false, ite_true,
      ite_false, reduceIte]
  · cases hf : findButton st.buttons pointerX pointerY <;> simp [h]

end PointerFSM

/-- Claim C1: while the FSM context is in state `confirm`, every
`updatePointerPosition` call, and hence every finite sequence of such
calls with arbitrary coordinates and arbitrary registered button bounds,
leaves the context unchanged, so no new confirmation id can be produced
until `resetConfirm` runs. -/
theorem C1_confirm_ignores_pointer_updates
    (screenHeight : ℚ) (updates : List (ℚ × ℚ × ℤ)) (st : PointerFSM.FSMModel)
    (h : st.ctx.state = PointerFSM.FSMState.confirm) :
    (PointerFSM.applyPointerUpdates screenHeight updates st).ctx = st.ctx := by
  induction updates generalizing st with
  | nil => rfl
  | cons u us ih =>
    have h1 := PointerFSM.updatePointerPosition_confirm_frozen
      screenHeight u.1 u.2.1 u.2.2 st h
    have h2 : (PointerFSM.updatePointerPosition screenHeight u.1 u.2.1 u.2.2 st).ctx.state
        = PointerFSM.FSMState.confirm := by rw [h1]; exact h
    calc (PointerFSM.applyPointerUpdates screenHeight (u :: us) st).ctx
        = (PointerFSM.applyPointerUpdates screenHeight us
            (PointerFSM.updatePointerPosition screenHeight u.1 u.2.1 u.2.2 st)).ctx := rfl
      _ = (PointerFSM.updatePointerPosition screenHeight u.1 u.2.1 u.2.2 st).ctx :=
          ih _ h2
      _ = st.ctx := h1

/-- Witness for C1 at a concrete confirm-state context and a concrete
update sequence. -/
theorem C1_confirm_ignores_pointer_updates_witness :
    (PointerFSM.applyPointerUpdates 1000
      [(50, 50, 100), (500, 990, 200), (5, 5, 300)]
      { ctx := { state := PointerFSM.FSMState.confirm
                 activeButtonId := some "btn-want"
                 hoverStartTime := some 10
                 confirmedButtonId := some "btn-want" }
        lastHoveredId := none
        lastHoveredTime := 0
        lastGestureTime := 0
        buttons := [{ x := 0, y := 0, width := 100, height := 100, id := "btn-want" }] }).ctx
    = { state := PointerFSM.FSMState.confirm
        activeButtonId := some "btn-want"
        hoverStartTime := some 10
        confirmedButtonId := some "btn-want" } :=
  C1_confirm_ignores_pointer_updates 1000 _ _ rfl

/-- Claim C4: if more than 12000 ms have passed since the last
`updatePointerPosition` call, the next inactivity tick forces the FSM
context to the fully cleared idle context (`activeButtonId`,
`hoverStartTime` and `confirmedButtonId` all cleared), from any current
state, including `confirm` without a prior `resetConfirm`. -/
theorem C4_inactivity_forces_idle (now : ℤ) (st : PointerFSM.FSMModel)
    (h : now - st.lastGestureTime > 12000) :
    (PointerFSM.checkInactivity now st).ctx = PointerFSM.initialContext := by
  unfold PointerFSM.checkInactivity
  rw [if_pos h]

/-- Witness for C4: a confirm-state context last updated at t=0 is fully
cleared by the tick at t=12001. -/
theorem C4_inactivity_forces_idle_witness :
    (PointerFSM.checkInactivity 12001
      { ctx := { state := PointerFSM.FSMState.confirm
                 activeButtonId := some "btn-want"
                 hoverStartTime := some 10
                 confirmedButtonId := some "btn-want" }
        lastHoveredId := none
        lastHoveredTime := 0
        lastGestureTime := 0
        buttons := [] }).ctx = PointerFSM.initialContext :=
  C4_inactivity_forces_idle 12001 _ (by decide)

namespace PointerFSM

theorem findButton_foldl_eq_getLast (p : ButtonBounds → Bool)
    (l : List ButtonBounds) (acc : Option ButtonBounds) :
    l.foldl (fun a b => if p b then some b else a) acc
      = match (l.filter p).getLast? with
        | some b => some b
        | none => acc := by
  induction l generalizing acc with
  | nil => rfl
  | cons b t ih =>
    by_cases hb : p b
    · simp only [List.foldl_cons, List.filter_cons, hb, if_pos, ite_true]
      rw [ih (some b)]
      cases ht : (t.filter p) with
      | nil => simp
      | cons c cs =>
        cases hgl : (c :: cs).getLast? with
        | none => simp [List.getLast?_eq_none_iff] at hgl
        | some d => simp [hgl]
    · simp only [List.foldl_cons, List.filter_cons, hb, if_neg, ite_false,
        Bool.false_eq_true]
      exact ih acc

end PointerFSM

/-- Claim C9: hit-testing is a deterministic function of the registry
contents and the pointer position, returns at most one target, and
returns exactly the last matching rectangle in the registry's insertion
order, because the `forEach` scan overwrites earlier matches. -/
theorem C9_findButton_last_match (buttons : List PointerFSM.ButtonBounds)
    (pointerX pointerY : ℚ) :
    PointerFSM.findButton buttons pointerX pointerY
      = (buttons.filter (PointerFSM.isPointerInButton pointerX pointerY)).getLast? := by
  unfold PointerFSM.findButton
  rw [PointerFSM.findButton_foldl_eq_getLast]
  cases h : (buttons.filter (PointerFSM.isPointerInButton pointerX pointerY)).getLast? <;>
    simp

/-- Claim C10: the `up` gesture branch of `handleGesture` applies from
every FSM context, including state `confirm`: with `distance > 0.15` it
returns the fully cleared idle context, otherwise it sets state `cancel`
and clears `activeButtonId` while retaining `confirmedButtonId` (and
`hoverStartTime`); in particular the resulting state is never `confirm`,
so the confirm-state freeze applies only to pointer updates. -/
theorem C10_handleGesture_up (st : PointerFSM.FSMModel) (distance : ℚ) (now : ℤ) :
    PointerFSM.handleGesture PointerFSM.Direction.up distance now st
      = { st with ctx :=
            if distance > 15 / 100 then PointerFSM.initialContext
            else { st.ctx with
                    state := PointerFSM.FSMState.cancel
                    activeButtonId := none } } ∧
    (PointerFSM.handleGesture PointerFSM.Direction.up distance now st).ctx.state
      ≠ PointerFSM.FSMState.confirm := by
  constructor
  · unfold PointerFSM.handleGesture
    by_cases h : distance > 15 / 100 <;> simp [h]
  · unfold PointerFSM.handleGesture
    by_cases h : distance > 15 / 100 <;>
      simp [h, PointerFSM.initialContext]

/-- Counterexample to claim C6: the machine left target "btn-want" at
t=0, so at t=700 the claimed grace window of roughly one second is still
open, yet a down gesture from idle confirms nothing and leaves the
context untouched, because the source's grace window is only 500 ms. -/
theorem C6_grace_window_counterexample :
    PointerFSM.handleGesture PointerFSM.Direction.down 0 700
      { ctx := PointerFSM.initialContext
        lastHoveredId := some "btn-want"
        lastHoveredTime := 0
        lastGestureTime := 0
        buttons := [] }
    = { ctx := PointerFSM.initialContext
        lastHoveredId := some "btn-want"
        lastHoveredTime := 0
        lastGestureTime := 0
        buttons := [] } := by
  decide

/-- Claim C6 as amended: the grace window is 500 ms. From the idle state
with a truthy last-hovered id, a down gesture confirms that id exactly
when fewer than 500 ms have elapsed since the pointer left it; once 500
ms or more have elapsed, the gesture changes nothing. -/
theorem C6_grace_window_500ms (st : PointerFSM.FSMModel) (distance : ℚ)
    (now : ℤ) (h1 : st.ctx.state = PointerFSM.FSMState.idle)
    (h2 : PointerFSM.jsTruthy st.lastHoveredId = true) :
    (now - st.lastHoveredTime < 500 →
      (PointerFSM.handleGesture PointerFSM.Direction.down distance now st).ctx.state
          = PointerFSM.FSMState.confirm ∧
      (PointerFSM.handleGesture PointerFSM.Direction.down distance now st).ctx.confirmedButtonId
          = st.lastHoveredId) ∧
    (500 ≤ now - st.lastHoveredTime →
      PointerFSM.handleGesture PointerFSM.Direction.down distance now st = st) := by
  have hnothover : ¬ (st.ctx.state = PointerFSM.FSMState.hover ∧
      PointerFSM.jsTruthy st.ctx.activeButtonId) := by
    rintro ⟨hh, -⟩
    rw [h1] at hh
    exact absurd hh (by decide)
  constructor
  · intro hlt
    unfold PointerFSM.handleGesture
    simp only [hnothover, if_neg, ite_false, reduceIte]
    rw [if_pos ⟨h1, h2, hlt⟩]
    exact ⟨rfl, rfl⟩
  · intro hge
    unfold PointerFSM.handleGesture
    simp only [hnothover, if_neg, ite_false, reduceIte]
    rw [if_neg]
    rintro ⟨-, -, hlt⟩
    omega

/-- Witness for C6 as amended: with the pointer having left "btn-want"
at t=0, a down gesture at t=100 confirms "btn-want", while a down
gesture at t=700 leaves the model unchanged. -/
theorem C6_grace_window_500ms_witness :
    ((PointerFSM.handleGesture PointerFSM.Direction.down 0 100
        { ctx := PointerFSM.initialContext
          lastHoveredId := some "btn-want"
          lastHoveredTime := 0
          lastGestureTime := 0
          buttons := [] }).ctx.state = PointerFSM.FSMState.confirm ∧
     (PointerFSM.handleGesture PointerFSM.Direction.down 0 100
        { ctx := PointerFSM.initialContext
          lastHoveredId := some "btn-want"
          lastHoveredTime := 0
          lastGestureTime := 0
          buttons := [] }).ctx.confirmedButtonId = some "btn-want") ∧
    PointerFSM.handleGesture PointerFSM.Direction.down 0 700
      { ctx := PointerFSM.initialContext
        lastHoveredId := some "btn-want"
        lastHoveredTime := 0
        lastGestureTime := 0
        buttons := [] }
    = { ctx := PointerFSM.initialContext
        lastHoveredId := some "btn-want"
        lastHoveredTime := 0
        lastGestureTime := 0
        buttons := [] } :=
  ⟨(C6_grace_window_500ms _ 0 100 rfl (by decide)).1 (by decide),
   (C6_grace_window_500ms _ 0 700 rfl (by decide)).2 (by decide)⟩

namespace PointerFSM

theorem updatePointerPosition_ctx_spec
    (screenHeight pointerX pointerY : ℚ) (now : ℤ) (st : FSMModel) :
    (updatePointerPosition screenHeight pointerX pointerY now st).ctx =
      if isPointerInCancelZone screenHeight pointerY then
        if st.ctx.state = FSMState.confirm then st.ctx
        else { st.ctx with
                state := FSMState.cancel
                activeButtonId := none }
      else
        match findButton st.buttons pointerX pointerY with
        | some foundButton =>
          if st.ctx.state = FSMState.confirm then st.ctx
          else if st.ctx.activeButtonId = some foundButton.id then st.ctx
          else { st.ctx with
                  state := FSMState.hover
                  activeButtonId := some foundButton.id
                  hoverStartTime := some now
                  confirmedButtonId := none }
        | none =>
          if st.ctx.state = FSMState.confirm then st.ctx
          else { st.ctx with
                  state := FSMState.idle
                  activeButtonId := none
                  hoverStartTime := none } := by
  unfold updatePointerPosition
  cases h1 : isPointerInCancelZone screenHeight pointerY
  · simp only [h1, Bool.false_eq_true, if_false, reduceIte]
    cases h2 : findButton st.buttons pointerX pointerY <;>
      dsimp only <;> split_ifs <;> rfl
  · simp only [h1, if_true, reduceIte]
    split_ifs <;> rfl

end PointerFSM

/-- Counterexample to claim C5: after confirming button "a" and calling
`resetConfirm`, a pointer update on "a" leaves the machine in `idle`
(because `resetConfirm` retained `activeButtonId = "a"` and the update
sees the same id as a continued hover), while the identical update on a
freshly initialized context produces `hover` — the post-reset cycle does
not reproduce the first cycle's state sequence. -/
theorem C5_reset_not_identical_counterexample :
    (PointerFSM.updatePointerPosition 1000 50 50 200
      (PointerFSM.resetConfirm
        { ctx := { state := PointerFSM.FSMState.confirm
                   activeButtonId := some "a"
                   hoverStartTime := some 100
                   confirmedButtonId := some "a" }
          lastHoveredId := none
          lastHoveredTime := 0
          lastGestureTime := 0
          buttons := [{ x := 0, y := 0, width := 100, height := 100, id := "a" }] })).ctx.state
      = PointerFSM.FSMState.idle ∧
    (PointerFSM.updatePointerPosition 1000 50 50 200
      { ctx := PointerFSM.initialContext
        lastHoveredId := none
        lastHoveredTime := 0
        lastGestureTime := 0
        buttons := [{ x := 0, y := 0, width := 100, height := 100, id := "a" }] }).ctx.state
      = PointerFSM.FSMState.hover := by
  have hz : PointerFSM.isPointerInCancelZone 1000 50 = false := by
    unfold PointerFSM.isPointerInCancelZone PointerFSM.CANCEL_ZONE_HEIGHT
    norm_num
  have hb : PointerFSM.isPointerInButton 50 50
      { x := 0, y := 0, width := 100, height := 100, id := "a" } = true := by
    unfold PointerFSM.isPointerInButton
    norm_num
  have hf : PointerFSM.findButton
      [{ x := 0, y := 0, width := 100, height := 100, id := "a" }] 50 50
      = some { x := 0, y := 0, width := 100, height := 100, id := "a" } := by
    unfold PointerFSM.findButton
    simp [hb]
  constructor
  · rw [PointerFSM.updatePointerPosition_ctx_spec]
    simp [hz, hf, PointerFSM.resetConfirm]
  · rw [PointerFSM.updatePointerPosition_ctx_spec]
    simp [hz, hf, PointerFSM.initialContext]

/-- Claim C5 as amended: `resetConfirm` retains `activeButtonId`, so an
immediate re-entry on the same target is treated as a continued hover
and is ignored; but as soon as one pointer update outside all buttons
(and outside the cancel zone) has been processed after the reset, the
context equals the freshly initialized context exactly, and since a
pointer update drives the context as a function of only the context and
the registered buttons, every later cycle behaves identically to a first
cycle from a fresh context. -/
theorem C5_reset_fresh_after_leaving (st : PointerFSM.FSMModel)
    (screenHeight pointerX pointerY : ℚ) (now : ℤ)
    (hz : PointerFSM.isPointerInCancelZone screenHeight pointerY = false)
    (hf : PointerFSM.findButton st.buttons pointerX pointerY = none) :
    (PointerFSM.updatePointerPosition screenHeight pointerX pointerY now
        (PointerFSM.resetConfirm st)).ctx = PointerFSM.initialContext ∧
    (∀ (m₁ m₂ : PointerFSM.FSMModel) (x y : ℚ) (t : ℤ),
      m₁.ctx = m₂.ctx → m₁.buttons = m₂.buttons →
      (PointerFSM.updatePointerPosition screenHeight x y t m₁).ctx
        = (PointerFSM.updatePointerPosition screenHeight x y t m₂).ctx) := by
  constructor
  · rw [PointerFSM.updatePointerPosition_ctx_spec]
    have hb : (PointerFSM.resetConfirm st).buttons = st.buttons := rfl
    simp [hz, hb, hf, PointerFSM.resetConfirm, PointerFSM.initialContext]
  · intro m₁ m₂ x y t hctx hbtns
    rw [PointerFSM.updatePointerPosition_ctx_spec,
      PointerFSM.updatePointerPosition_ctx_spec, hctx, hbtns]

/-- Witness for C5 as amended: leaving all buttons right after the reset
restores the freshly initialized context. -/
theorem C5_reset_fresh_after_leaving_witness :
    (PointerFSM.updatePointerPosition 1000 500 500 300
      (PointerFSM.resetConfirm
        { ctx := { state := PointerFSM.FSMState.confirm
                   activeButtonId := some "a"
                   hoverStartTime := some 100
                   confirmedButtonId := some "a" }
          lastHoveredId := none
          lastHoveredTime := 0
          lastGestureTime := 0
          buttons := [{ x := 0, y := 0, width := 100, height := 100, id := "a" }] })).ctx
      = PointerFSM.initialContext :=
  (C5_reset_fresh_after_leaving _ 1000 500 500 300
    (by unfold PointerFSM.isPointerInCancelZone PointerFSM.CANCEL_ZONE_HEIGHT; norm_num)
    (by unfold PointerFSM.findButton PointerFSM.isPointerInButton; norm_num)).1

/-- Claim C3: on the first tracked frame after a tracking loss
(`isTracking = false` on the previous conditioned sample), the
conditioned position equals the mapped raw position exactly — the EMA
blend with the stale history is skipped — while loss frames keep the
conditioned position in place; hence the conditioned jump of the
reacquire frame equals exactly the distance to that frame's mapped raw
position, never more. -/
theorem C3_reacquire_skips_blend (sensitivity screenWidth screenHeight : ℚ)
    (prev : NosePointer.PointerPosition) (nx ny : ℚ)
    (hp : prev.isTracking = false) :
    (NosePointer.processFrameTracked sensitivity screenWidth screenHeight prev nx ny).x
      = (NosePointer.mapRawToScreen sensitivity nx ny screenWidth screenHeight).1 ∧
    (NosePointer.processFrameTracked sensitivity screenWidth screenHeight prev nx ny).y
      = (NosePointer.mapRawToScreen sensitivity nx ny screenWidth screenHeight).2 ∧
    (NosePointer.processFrameLost prev).x = prev.x ∧
    (NosePointer.processFrameLost prev).y = prev.y ∧
    |(NosePointer.processFrameTracked sensitivity screenWidth screenHeight prev nx ny).x - prev.x|
      = |(NosePointer.mapRawToScreen sensitivity nx ny screenWidth screenHeight).1 - prev.x| ∧
    |(NosePointer.processFrameTracked sensitivity screenWidth screenHeight prev nx ny).y - prev.y|
      = |(NosePointer.mapRawToScreen sensitivity nx ny screenWidth screenHeight).2 - prev.y| := by
  unfold NosePointer.processFrameTracked NosePointer.smoothStep NosePointer.processFrameLost
  simp [hp]

/-- Witness for C3 at a concrete pre-loss sample: reacquiring at the
screen-centered landmark with sensitivity 2 lands the conditioned
pointer exactly on the mapped raw position (500, 500), with no pull
toward the stale history at (100, 100). -/
theorem C3_reacquire_skips_blend_witness :
    (NosePointer.processFrameTracked 2 1000 1000
      { x := 100, y := 100, confidence := 1, isTracking := false }
      (1 / 2) (1 / 2)).x = 500 ∧
    (NosePointer.processFrameTracked 2 1000 1000
      { x := 100, y := 100, confidence := 1, isTracking := false }
      (1 / 2) (1 / 2)).y = 500 := by
  have h := C3_reacquire_skips_blend 2 1000 1000
    { x := 100, y := 100, confidence := 1, isTracking := false } (1 / 2) (1 / 2) rfl
  refine ⟨?_, ?_⟩
  · rw [h.1]
    unfold NosePointer.mapRawToScreen
    norm_num
  · rw [h.2.1]
    unfold NosePointer.mapRawToScreen
    norm_num

/-- Claim C7: the gesture classifier returns `down` exactly when the
frame-to-frame vertical delta exceeds 2 px and the cumulative vertical
delta since the window start exceeds 2% of the screen height, `up`
exactly when the frame delta is below -5 px and the cumulative delta is
below -5% of the screen height, and `none` otherwise; and on a tracked
frame with an anchored window, `detectGesture` publishes exactly this
classification of its frame and cumulative deltas. -/
theorem C7_detectGesture_thresholds :
    (∀ deltaY totalDeltaY screenHeight : ℚ,
      (NosePointer.classifyDirection deltaY totalDeltaY screenHeight
          = PointerFSM.Direction.down ↔
        deltaY > 2 ∧ totalDeltaY > screenHeight * (2 / 100)) ∧
      (NosePointer.classifyDirection deltaY totalDeltaY screenHeight
          = PointerFSM.Direction.up ↔
        deltaY < -5 ∧ totalDeltaY < -(screenHeight * (5 / 100))) ∧
      (NosePointer.classifyDirection deltaY totalDeltaY screenHeight
          = PointerFSM.Direction.none ↔
        ¬(deltaY > 2 ∧ totalDeltaY > screenHeight * (2 / 100)) ∧
        ¬(deltaY < -5 ∧ totalDeltaY < -(screenHeight * (5 / 100))))) ∧
    (∀ (g : NosePointer.GestureModel) (pos : ℚ × ℚ) (screenHeight : ℚ)
        (now : ℤ) (pp sp : ℚ × ℚ),
      g.prevNosePos = some pp → g.gestureStartPos = some sp → sp.2 ≠ 0 →
      (NosePointer.detectGesture pos screenHeight now g).gestureState.direction
        = NosePointer.classifyDirection (pos.2 - pp.2) (pos.2 - sp.2) screenHeight) := by
  constructor
  · intro deltaY totalDeltaY screenHeight
    unfold NosePointer.classifyDirection
    by_cases h1 : deltaY > 2 ∧ totalDeltaY > screenHeight * (2 / 100)
    · have h2 : ¬(deltaY < -5 ∧ totalDeltaY < -(screenHeight * (5 / 100))) := by
        rintro ⟨h5, -⟩
        linarith [h1.1]
      simp [h1, h2]
    · by_cases h2 : deltaY < -5 ∧ totalDeltaY < -(screenHeight * (5 / 100))
      · simp [h1, h2]
      · simp [h1, h2]
  · intro g pos screenHeight now pp sp hpp hsp hy
    unfold NosePointer.detectGesture
    rw [hpp, hsp]
    simp only [hy, if_neg, ite_false, reduceIte]
    by_cases hd : NosePointer.classifyDirection (pos.2 - pp.2) (pos.2 - sp.2) screenHeight
        ≠ g.gestureState.direction
    · simp only [if_pos hd]
      by_cases hn : NosePointer.classifyDirection (pos.2 - pp.2) (pos.2 - sp.2) screenHeight
          ≠ PointerFSM.Direction.none
      · simp only [if_pos hn]
      · simp only [if_neg hn]
    · simp only [if_neg hd]
      exact (not_not.mp hd).symm

/-- Witness for C7: from an anchored window at y=10 (nonzero anchor), a
sample at y=13 on a 100 px screen gives frame delta 3 > 2 and cumulative
delta 3 > 2, so `detectGesture` publishes `down`. -/
theorem C7_detectGesture_thresholds_witness :
    (NosePointer.detectGesture (0, 13) 100 1000
      { gestureState := NosePointer.clearedGestureState
        prevNosePos := some (0, 10)
        gestureStartTime := some 0
        gestureStartPos := some (0, 10)
        pendingClear := none }).gestureState.direction
      = PointerFSM.Direction.down := by
  rw [C7_detectGesture_thresholds.2 _ (0, 13) 100 1000 (0, 10) (0, 10) rfl rfl
    (by norm_num)]
  unfold NosePointer.classifyDirection
  norm_num

/-- Claim C8: when `detectGesture` publishes a changed, non-`none`
direction it schedules the auto-clear timeout for 500 ms later carrying
that direction; the timeout body clears the gesture state to `none` and
resets all window anchors when the direction is still the one it
captured, and does nothing when a different direction was classified
meanwhile; and a repeat classification of the current direction
publishes nothing and schedules nothing (only the previous-position
anchor advances), so one sustained motion yields one discrete event. -/
theorem C8_gesture_cooldown :
    (∀ (g : NosePointer.GestureModel) (pos : ℚ × ℚ) (screenHeight : ℚ)
        (now : ℤ) (pp : ℚ × ℚ),
      g.prevNosePos = some pp →
      (NosePointer.detectGesture pos screenHeight now g).gestureState.direction
        ≠ g.gestureState.direction →
      (NosePointer.detectGesture pos screenHeight now g).gestureState.direction
        ≠ PointerFSM.Direction.none →
      (NosePointer.detectGesture pos screenHeight now g).pendingClear
        = some ((NosePointer.detectGesture pos screenHeight now g).gestureState.direction,
            now + 500)) ∧
    (∀ (g : NosePointer.GestureModel) (d : PointerFSM.Direction),
      g.gestureState.direction = d →
      NosePointer.clearGestureTimeout d g
        = { gestureState := NosePointer.clearedGestureState
            prevNosePos := none
            gestureStartTime := none
            gestureStartPos := none
            pendingClear := none }) ∧
    (∀ (g : NosePointer.GestureModel) (d : PointerFSM.Direction),
      g.gestureState.direction ≠ d →
      NosePointer.clearGestureTimeout d g = g) ∧
    (∀ (g : NosePointer.GestureModel) (pos : ℚ × ℚ) (screenHeight : ℚ)
        (now : ℤ) (pp sp : ℚ × ℚ),
      g.prevNosePos = some pp → g.gestureStartPos = some sp → sp.2 ≠ 0 →
      NosePointer.classifyDirection (pos.2 - pp.2) (pos.2 - sp.2) screenHeight
        = g.gestureState.direction →
      NosePointer.detectGesture pos screenHeight now g
        = { g with prevNosePos := some pos }) := by
  refine ⟨?_, ?_, ?_, ?_⟩
  · intro g pos screenHeight now pp hpp hchanged hnone
    unfold NosePointer.detectGesture at *
    rw [hpp] at hchanged hnone ⊢
    by_cases hd : NosePointer.classifyDirection (pos.2 - pp.2)
        (pos.2 -
          match g.gestureStartPos with
          | some sp => if sp.2 = 0 then pos.2 else sp.2
          | none => pos.2) screenHeight
        ≠ g.gestureState.direction
    · simp only [if_pos hd] at hnone ⊢
      by_cases hn : NosePointer.classifyDirection (pos.2 - pp.2)
          (pos.2 -
            match g.gestureStartPos with
            | some sp => if sp.2 = 0 then pos.2 else sp.2
            | none => pos.2) screenHeight
          ≠ PointerFSM.Direction.none
      · simp only [if_pos hn]
      · simp only [if_neg hn] at hnone ⊢
        exact absurd (not_not.mp hn) hnone
    · simp only [if_neg hd] at hchanged
      exact absurd rfl hchanged
  · intro g d hdir
    unfold NosePointer.clearGestureTimeout
    rw [if_pos hdir]
  · intro g d hdir
    unfold NosePointer.clearGestureTimeout
    rw [if_neg hdir]
  · intro g pos screenHeight now pp sp hpp hsp hy hsame
    unfold NosePointer.detectGesture
    rw [hpp, hsp]
    simp only [hy, if_neg, ite_false, reduceIte]
    rw [if_neg (not_not.mpr hsame)]

/-- Witness for C8 at concrete states: a changed `down` classification
schedules the 500 ms auto-clear for `down`; firing the timeout while the
state still holds `down` clears everything; firing it after the state
moved to `up` changes nothing; and re-classifying the held `down`
direction only advances the previous-position anchor. -/
theorem C8_gesture_cooldown_witness :
    (NosePointer.detectGesture (0, 13) 100 1000
      { gestureState := NosePointer.clearedGestureState
        prevNosePos := some (0, 10)
        gestureStartTime := some 1
        gestureStartPos := some (0, 10)
        pendingClear := none }).pendingClear
      = some ((NosePointer.detectGesture (0, 13) 100 1000
          { gestureState := NosePointer.clearedGestureState
            prevNosePos := some (0, 10)
            gestureStartTime := some 1
            gestureStartPos := some (0, 10)
            pendingClear := none }).gestureState.direction, 1500) ∧
    NosePointer.clearGestureTimeout PointerFSM.Direction.down
      { gestureState := { direction := PointerFSM.Direction.down
                          distance := 3 / 100
                          duration := 999 }
        prevNosePos := some (0, 13)
        gestureStartTime := some 1
        gestureStartPos := some (0, 10)
        pendingClear := some (PointerFSM.Direction.down, 1500) }
      = { gestureState := NosePointer.clearedGestureState
          prevNosePos := none
          gestureStartTime := none
          gestureStartPos := none
          pendingClear := none } ∧
    NosePointer.clearGestureTimeout PointerFSM.Direction.down
      { gestureState := { direction := PointerFSM.Direction.up
                          distance := 6 / 100
                          duration := 999 }
        prevNosePos := some (0, 13)
        gestureStartTime := some 1
        gestureStartPos := some (0, 10)
        pendingClear := some (PointerFSM.Direction.up, 1600) }
      = { gestureState := { direction := PointerFSM.Direction.up
                            distance := 6 / 100
                            duration := 999 }
          prevNosePos := some (0, 13)
          gestureStartTime := some 1
          gestureStartPos := some (0, 10)
          pendingClear := some (PointerFSM.Direction.up, 1600) } ∧
    NosePointer.detectGesture (0, 16) 100 1100
      { gestureState := { direction := PointerFSM.Direction.down
                          distance := 3 / 100
                          duration := 999 }
        prevNosePos := some (0, 13)
        gestureStartTime := some 1
        gestureStartPos := some (0, 10)
        pendingClear := some (PointerFSM.Direction.down, 1500) }
      = { gestureState := { direction := PointerFSM.Direction.down
                            distance := 3 / 100
                            duration := 999 }
          prevNosePos := some (0, 16)
          gestureStartTime := some 1
          gestureStartPos := some (0, 10)
          pendingClear := some (PointerFSM.Direction.down, 1500) } := by
  refine ⟨?_, ?_, ?_, ?_⟩
  · have hchanged : (NosePointer.detectGesture (0, 13) 100 1000
        { gestureState := NosePointer.clearedGestureState
          prevNosePos := some (0, 10)
          gestureStartTime := some 1
          gestureStartPos := some (0, 10)
          pendingClear := none }).gestureState.direction
        = PointerFSM.Direction.down := by
      unfold NosePointer.detectGesture NosePointer.classifyDirection
        NosePointer.clearedGestureState
      norm_num
      rfl
    have h := C8_gesture_cooldown.1
      { gestureState := NosePointer.clearedGestureState
        prevNosePos := some (0, 10)
        gestureStartTime := some 1
        gestureStartPos := some (0, 10)
        pendingClear := none } (0, 13) 100 1000 (0, 10) rfl
      (by rw [hchanged]; decide) (by rw [hchanged]; decide)
    exact h
  · exact C8_gesture_cooldown.2.1 _ PointerFSM.Direction.down rfl
  · exact C8_gesture_cooldown.2.2.1 _ PointerFSM.Direction.down (by decide)
  · refine C8_gesture_cooldown.2.2.2 _ (0, 16) 100 1100 (0, 13) (0, 10) rfl rfl
      (by norm_num) ?_
    unfold NosePointer.classifyDirection
    norm_num

namespace DwellISM

theorem runDwell_nil (reg : List TargetRect) (D : ℤ) (s : DwellState) :
    runDwell reg D [] s = s := rfl

theorem runDwell_cons (reg : List TargetRect) (D : ℤ) (u : ℤ × ℚ × ℚ)
    (l : List (ℤ × ℚ × ℚ)) (s : DwellState) :
    runDwell reg D (u :: l) s
      = runDwell reg D l (dwellUpdate reg D u.1 u.2.1 u.2.2 s) := rfl

theorem runDwell_ready_absorbing (reg : List TargetRect) (D : ℤ) (i : String)
    (l : List (ℤ × ℚ × ℚ))
    (h : ∀ u ∈ l, outerHitsId reg i u = true) :
    runDwell reg D l (DwellState.readyToConfirm i)
      = DwellState.readyToConfirm i := by
  induction l with
  | nil => rfl
  | cons u t ih =>
    have hu := h u (List.mem_cons_self u t)
    unfold outerHitsId at hu
    have hstep : dwellUpdate reg D u.1 u.2.1 u.2.2 (DwellState.readyToConfirm i)
        = DwellState.readyToConfirm i := by
      unfold dwellUpdate
      cases hh : hitOuter reg u.2.1 u.2.2 with
      | none => rw [hh] at hu; simp at hu
      | some r =>
        rw [hh] at hu
        have hr : r.id = i := by simpa using hu
        dsimp only
        rw [if_pos hr]
    rw [runDwell_cons, hstep]
    exact ih (fun v hv => h v (List.mem_cons_of_mem u hv))

theorem runDwell_charging_cases (reg : List TargetRect) (D : ℤ) (i : String)
    (t0 : ℤ) (l : List (ℤ × ℚ × ℚ))
    (hin : ∀ u ∈ l, innerHitsId reg i u = true)
    (hout : ∀ u ∈ l, outerHitsId reg i u = true) :
    (runDwell reg D l (DwellState.charging i t0) = DwellState.readyToConfirm i
        ∧ ∃ u ∈ l, u.1 - t0 ≥ D) ∨
    (runDwell reg D l (DwellState.charging i t0) = DwellState.charging i t0
        ∧ ∀ u ∈ l, u.1 - t0 < D) := by
  induction l with
  | nil => right; exact ⟨rfl, by simp⟩
  | cons u t ih =>
    have hu := hin u (List.mem_cons_self u t)
    unfold innerHitsId at hu
    have hint : ∀ v ∈ t, innerHitsId reg i v = true :=
      fun v hv => hin v (List.mem_cons_of_mem u hv)
    have houtt : ∀ v ∈ t, outerHitsId reg i v = true :=
      fun v hv => hout v (List.mem_cons_of_mem u hv)
    by_cases hD1 : u.1 - t0 ≥ D
    · have hstep : dwellUpdate reg D u.1 u.2.1 u.2.2 (DwellState.charging i t0)
          = DwellState.readyToConfirm i := by
        unfold dwellUpdate
        cases hh : hitInner reg u.2.1 u.2.2 with
        | none => rw [hh] at hu; simp at hu
        | some r =>
          rw [hh] at hu
          have hr : r.id = i := by simpa using hu
          dsimp only
          rw [if_pos hr, if_pos hD1]
      left
      refine ⟨?_, ⟨u, List.mem_cons_self u t, hD1⟩⟩
      rw [runDwell_cons, hstep]
      exact runDwell_ready_absorbing reg D i t houtt
    · have hstep : dwellUpdate reg D u.1 u.2.1 u.2.2 (DwellState.charging i t0)
          = DwellState.charging i t0 := by
        unfold dwellUpdate
        cases hh : hitInner reg u.2.1 u.2.2 with
        | none => rw [hh] at hu; simp at hu
        | some r =>
          rw [hh] at hu
          have hr : r.id = i := by simpa using hu
          dsimp only
          rw [if_pos hr, if_neg hD1]
      rcases ih hint houtt with ⟨hready, u', hu', hD'⟩ | ⟨hcharge, hall⟩
      · left
        refine ⟨?_, ⟨u', List.mem_cons_of_mem u hu', hD'⟩⟩
        rw [runDwell_cons, hstep]
        exact hready
      · right
        refine ⟨?_, ?_⟩
        · rw [runDwell_cons, hstep]
          exact hcharge
        · intro v hv
          rcases List.mem_cons.mp hv with rfl | hv'
          · omega
          · exact hall v hv'

theorem runDwell_charging_stays (reg : List TargetRect) (D : ℤ) (i : String)
    (t0 : ℤ) (l : List (ℤ × ℚ × ℚ))
    (hin : ∀ u ∈ l, innerHitsId reg i u = true)
    (hlt : ∀ u ∈ l, u.1 - t0 < D) :
    runDwell reg D l (DwellState.charging i t0) = DwellState.charging i t0 := by
  induction l with
  | nil => rfl
  | cons u t ih =>
    have hu := hin u (List.mem_cons_self u t)
    unfold innerHitsId at hu
    have hstep : dwellUpdate reg D u.1 u.2.1 u.2.2 (DwellState.charging i t0)
        = DwellState.charging i t0 := by
      unfold dwellUpdate
      cases hh : hitInner reg u.2.1 u.2.2 with
      | none => rw [hh] at hu; simp at hu
      | some r =>
        rw [hh] at hu
        have hr : r.id = i := by simpa using hu
        dsimp only
        rw [if_pos hr, if_neg (not_le.mpr (hlt u (List.mem_cons_self u t)))]
    rw [runDwell_cons, hstep]
    exact ih (fun v hv => hin v (List.mem_cons_of_mem u hv))
      (fun v hv => hlt v (List.mem_cons_of_mem u hv))

theorem dwellUpdate_idle_charging (reg : List TargetRect) (D : ℤ) (i : String)
    (u0 : ℤ × ℚ × ℚ) (hu : innerHitsId reg i u0 = true) :
    dwellUpdate reg D u0.1 u0.2.1 u0.2.2 DwellState.idle
      = DwellState.charging i u0.1 := by
  unfold innerHitsId at hu
  unfold dwellUpdate
  cases hh : hitInner reg u0.2.1 u0.2.2 with
  | none => rw [hh] at hu; simp at hu
  | some r =>
    rw [hh] at hu
    have hr : r.id = i := by simpa using hu
    dsimp only
    rw [hr]

end DwellISM

/-- Claim C2 (spec-modelled dwell machine): starting idle, a trace of
pointer samples that all hit target `i`'s inner region (and its outer
region), one of which comes at least the dwell duration `D` after the
first, deterministically ends in `ReadyToConfirm i`; and a trace whose
samples all hit the inner region but stay strictly under `D` after the
charge start, followed by an exit sample hitting no inner region, never
reaches `Confirmed` — not even if a down gesture follows the exit. -/
theorem C2_dwell_confirm_iff_full_dwell :
    (∀ (reg : List DwellISM.TargetRect) (D : ℤ) (i : String)
        (u0 : ℤ × ℚ × ℚ) (rest : List (ℤ × ℚ × ℚ)),
      0 < D →
      (∀ u ∈ u0 :: rest, DwellISM.innerHitsId reg i u = true) →
      (∀ u ∈ u0 :: rest, DwellISM.outerHitsId reg i u = true) →
      (∃ u ∈ u0 :: rest, u.1 - u0.1 ≥ D) →
      DwellISM.runDwell reg D (u0 :: rest) DwellISM.DwellState.idle
        = DwellISM.DwellState.readyToConfirm i) ∧
    (∀ (reg : List DwellISM.TargetRect) (D : ℤ) (i : String)
        (u0 : ℤ × ℚ × ℚ) (rest : List (ℤ × ℚ × ℚ)) (e : ℤ × ℚ × ℚ),
      (∀ u ∈ u0 :: rest, DwellISM.innerHitsId reg i u = true) →
      (∀ u ∈ u0 :: rest, u.1 - u0.1 < D) →
      DwellISM.hitInner reg e.2.1 e.2.2 = none →
      ∀ j, DwellISM.dwellGestureDown
          (DwellISM.dwellUpdate reg D e.1 e.2.1 e.2.2
            (DwellISM.runDwell reg D (u0 :: rest) DwellISM.DwellState.idle))
        ≠ DwellISM.DwellState.confirmed j) := by
  constructor
  · intro reg D i u0 rest hD hin hout hex
    rw [DwellISM.runDwell_cons,
      DwellISM.dwellUpdate_idle_charging reg D i u0 (hin u0 (List.mem_cons_self u0 rest))]
    rcases DwellISM.runDwell_charging_cases reg D i u0.1 rest
        (fun v hv => hin v (List.mem_cons_of_mem u0 hv))
        (fun v hv => hout v (List.mem_cons_of_mem u0 hv)) with
      ⟨hready, -⟩ | ⟨-, hall⟩
    · exact hready
    · exfalso
      rcases hex with ⟨u, hu, hge⟩
      rcases List.mem_cons.mp hu with rfl | hu'
      · omega
      · have := hall u hu'
        omega
  · intro reg D i u0 rest e hin hlt hnone j
    rw [DwellISM.runDwell_cons,
      DwellISM.dwellUpdate_idle_charging reg D i u0 (hin u0 (List.mem_cons_self u0 rest)),
      DwellISM.runDwell_charging_stays reg D i u0.1 rest
        (fun v hv => hin v (List.mem_cons_of_mem u0 hv))
        (fun v hv => hlt v (List.mem_cons_of_mem u0 hv))]
    unfold DwellISM.dwellUpdate
    rw [hnone]
    cases hh : DwellISM.hitOuter reg e.2.1 e.2.2 <;>
      simp [DwellISM.dwellGestureDown]

/-- Witness for C2 on the spec's example target: rect
`{x:100, y:100, w:200, h:200}` (inner region 120..280), dwell D=1000.
Holding `(150,150)` at t=0, 500, 1000 ends in `ReadyToConfirm "want"`;
holding it only at t=0, 500 and then exiting to `(400,400)` at t=600
leaves the machine unconfirmable even by a following down gesture. -/
theorem C2_dwell_confirm_iff_full_dwell_witness :
    DwellISM.runDwell [{ id := "want", x := 100, y := 100, width := 200, height := 200 }]
      1000 [(0, 150, 150), (500, 150, 150), (1000, 150, 150)]
      DwellISM.DwellState.idle
      = DwellISM.DwellState.readyToConfirm "want" ∧
    DwellISM.dwellGestureDown
      (DwellISM.dwellUpdate [{ id := "want", x := 100, y := 100, width := 200, height := 200 }]
        1000 600 400 400
        (DwellISM.runDwell [{ id := "want", x := 100, y := 100, width := 200, height := 200 }]
          1000 [(0, 150, 150), (500, 150, 150)] DwellISM.DwellState.idle))
      ≠ DwellISM.DwellState.confirmed "want" := by
  constructor
  · exact C2_dwell_confirm_iff_full_dwell.1
      [{ id := "want", x := 100, y := 100, width := 200, height := 200 }]
      1000 "want" (0, 150, 150) [(500, 150, 150), (1000, 150, 150)]
      (by decide)
      (by
        intro u hu
        fin_cases hu <;>
          norm_num [DwellISM.innerHitsId, DwellISM.hitInner, DwellISM.inInner,
            DwellISM.inRect, DwellISM.innerRect, DwellISM.INNER_MARGIN, List.find?])
      (by
        intro u hu
        fin_cases hu <;>
          norm_num [DwellISM.outerHitsId, DwellISM.hitOuter, DwellISM.inRect, List.find?])
      ⟨(1000, 150, 150),
        List.mem_cons_of_mem _ (List.mem_cons_of_mem _ (List.mem_cons_self _ _)),
        by decide⟩
  · exact C2_dwell_confirm_iff_full_dwell.2
      [{ id := "want", x := 100, y := 100, width := 200, height := 200 }]
      1000 "want" (0, 150, 150) [(500, 150, 150)] (600, 400, 400)
      (by
        intro u hu
        fin_cases hu <;>
          norm_num [DwellISM.innerHitsId, DwellISM.hitInner, DwellISM.inInner,
            DwellISM.inRect, DwellISM.innerRect, DwellISM.INNER_MARGIN, List.find?])
      (by
        intro u hu
        fin_cases hu <;> decide)
      (by
        norm_num [DwellISM.hitInner, DwellISM.inInner, DwellISM.inRect,
          DwellISM.innerRect, DwellISM.INNER_MARGIN, List.find?])
      "want"
